import Mathlib

/-!
# ecs-explorer: the three pickers and the exec launcher of `main.go`

A shallow embedding of `main.go`.  The program is sequential glue around four
external collaborators, which are made explicit here:

* the ECS client `svc` (a record of responders, `Svc`);
* the console: `fmt.Printf` appends to an effect trace, `fmt.Scanln` pops the
  next outcome from the input stream of the `World`;
* `strconv.Atoi` (Go standard library), modelled by `Atoi`;
* `log.Fatal` and run-time panics, which end the process: they are the
  `Res.fatal` and `Res.panic` results.

Go pointers (`*string`) are `Option String`; dereferencing `nil` panics.
-/

namespace EcsExplorer

/-! ## Errors -/

/-- The two `Err` values a `*strconv.NumError` can carry:
`strconv.ErrSyntax` and `strconv.ErrRange`. -/
inductive NumErrKind where
  | invalid
  | outOfRange
  deriving DecidableEq, Repr

/-- The value `*strconv.NumError` with fields `Func`, `Num`, `Err`. -/
structure NumError where
  Func : String
  Num : String
  Err : NumErrKind
  deriving DecidableEq, Repr

/-- Go `error` values met by the program. -/
inductive GoError where
  /-- an error produced by an external collaborator (SDK, `fmt.Scanln`,
  `cmd.Run`), given by its message -/
  | ext (msg : String)
  /-- the error returned by `strconv.Atoi` -/
  | num (e : NumError)
  /-- the value of `fmt.Errorf(pre ++ "%s", cause)` -/
  | errorf (pre : String) (cause : GoError)
  deriving DecidableEq, Repr

/-- The method `(*NumError).Error`; `quote` stands for `strconv.Quote`. -/
def NumError.Error (quote : String → String) (e : NumError) : String :=
  "strconv." ++ e.Func ++ ": parsing " ++ quote e.Num ++ ": " ++
    (match e.Err with
     | .invalid => "invalid syntax"
     | .outOfRange => "value out of range")

/-- The method `Error()` of a Go error: its message. -/
def GoError.Error (quote : String → String) : GoError → String
  | .ext msg => msg
  | .num e => e.Error quote
  | .errorf pre cause => pre ++ cause.Error quote

/-- The call `fmt.Errorf(pre ++ "%s", err)`. -/
def Errorf (pre : String) (err : GoError) : GoError := .errorf pre err

/-! ## `strconv.Atoi` -/

/-- The size in bits of Go's `int` (64-bit platforms). -/
def intSize : Nat := 64

/-- The value of a decimal digit, `none` for any other character. -/
def digitVal (c : Char) : Option Nat :=
  if 48 ≤ c.toNat ∧ c.toNat ≤ 57 then some (c.toNat - 48) else none

/-- The digit loop of `strconv.ParseUint(s, 10, bitSize)`: left to right, a
non-digit is a syntax error, a value above `2^bitSize - 1` a range error. -/
def parseUintLoop (bitSize : Nat) : List Char → Nat → Except NumErrKind Nat
  | [], n => .ok n
  | c :: cs, n =>
    match digitVal c with
    | none => .error .invalid
    | some d =>
      if n * 10 + d ≥ 2 ^ bitSize then .error .outOfRange
      else parseUintLoop bitSize cs (n * 10 + d)

/-- The function `strconv.Atoi` of the Go standard library, as
`ParseInt(s, 10, 0)` computes it: the empty string is a syntax error; one
leading `+` or `-` is taken off; the digits go through the loop of
`ParseUint`; a magnitude beyond the range of `int` is a range error.  The fast
path of `Atoi` for short strings returns the same results (fewer than 19
characters cannot leave the range).  The error is the `*NumError` with `Func`
set to `Atoi` and `Num` to the whole input. -/
def Atoi (s : String) : Except NumError Int :=
  match s.data with
  | [] => .error ⟨"Atoi", s, .invalid⟩
  | c :: rest =>
    let neg : Bool := c = '-'
    let digits := if c = '+' ∨ c = '-' then rest else c :: rest
    if digits = [] then .error ⟨"Atoi", s, .invalid⟩
    else
      match parseUintLoop intSize digits 0 with
      | .error k => .error ⟨"Atoi", s, k⟩
      | .ok un =>
        let cutoff := 2 ^ (intSize - 1)
        if neg = false ∧ un ≥ cutoff then .error ⟨"Atoi", s, .outOfRange⟩
        else if neg = true ∧ un > cutoff then .error ⟨"Atoi", s, .outOfRange⟩
        else .ok (if neg then -(un : Int) else (un : Int))

/-! ## Data model (`types.Cluster`, `types.Task`, `types.Container`) -/

/-- The fields of `types.Container` the program reads. -/
structure Container where
  Name : Option String := none
  deriving DecidableEq, Repr

/-- The fields of `types.Task` the program reads. -/
structure Task where
  TaskArn : Option String := none
  Containers : List Container := []
  deriving DecidableEq, Repr

/-- The fields of `types.Cluster` the program reads. -/
structure Cluster where
  ClusterName : Option String := none
  ClusterArn : Option String := none
  deriving DecidableEq, Repr

/-! ## Effects -/

/-- A request to the ECS control plane. -/
inductive ApiCall where
  | ListClusters
  | DescribeClusters (clusters : List String)
  | ListTasks (cluster : Option String)
  | DescribeTasks (cluster : Option String) (tasks : List String)
  deriving DecidableEq, Repr

/-- An observable effect of the program. -/
inductive Event where
  /-- text written to standard output -/
  | print (s : String)
  /-- one call of `fmt.Scanln` -/
  | scanln
  /-- one request to the ECS client -/
  | api (call : ApiCall)
  /-- one run of an external command with this argument vector -/
  | exec (argv : List String)
  deriving DecidableEq, Repr

/-- The console and the effect trace.  `stdin` holds what the successive
calls of `fmt.Scanln(&input)` yield: the token read, or the read error. -/
structure World where
  stdin : List (Except GoError String) := []
  trace : List Event := []

/-- Append one event to the trace. -/
def World.log (w : World) (e : Event) : World :=
  { w with trace := w.trace ++ [e] }

/-- The call `fmt.Printf` (or `fmt.Println`) with the formatted text `s`. -/
def World.print (w : World) (s : String) : World := w.log (.print s)

/-- The call `fmt.Scanln(&input)`: the next outcome of the input stream; at
the end of the input the error is `io.EOF`. -/
def Scanln (w : World) : Except GoError String × World :=
  match w.stdin with
  | [] => (.error (.ext "EOF"), w.log .scanln)
  | r :: rest => (r, { stdin := rest, trace := w.trace ++ [.scanln] })

/-- The number of `fmt.Scanln` calls in a trace. -/
def scanCount (t : List Event) : Nat := t.count .scanln

/-- A run-time panic of the Go runtime. -/
inductive Panic where
  /-- index out of range `[index]` with length `len` -/
  | indexOutOfRange (index : Int) (len : Nat)
  /-- nil pointer dereference -/
  | nilDeref
  deriving DecidableEq, Repr

/-- How a piece of code ends: it completes with a value, or the process is
ended by `log.Fatal` (message logged, exit status 1) or by a panic. -/
inductive Res (α : Type) where
  | done (a : α)
  | fatal (msg : String)
  | panic (p : Panic)
  deriving DecidableEq, Repr

/-- The ECS client: what each request answers. -/
structure Svc where
  ListClusters : Except GoError (List String)
  DescribeClusters : List String → Except GoError (List Cluster)
  ListTasks : Option String → Except GoError (List String)
  DescribeTasks : Option String → List String → Except GoError (List Task)

/-! ## The pickers -/

/-- The loop `for i, cluster := range r.Clusters` of `selectECSCluster`,
from index `i` on. -/
def printClusters : Nat → List Cluster → World → Res Unit × World
  | _, [], w => (.done (), w)
  | i, cluster :: rest, w =>
    match cluster.ClusterName with
    | none => (.panic .nilDeref, w)
    | some name => printClusters (i + 1) rest (w.print (toString i ++ " | " ++ name ++ "\n"))

/-- The function `selectECSCluster`. -/
def selectECSCluster (svc : Svc) (w : World) : Res (Cluster × Option GoError) × World :=
  let cluster : Cluster := {}
  -- List ECS Clusters
  let w := w.log (.api .ListClusters)
  match svc.ListClusters with
  | .error err => (.done (cluster, some (Errorf "failed to list clusters: " err)), w)
  | .ok clusterArns =>
    -- Describe ECS Clusters
    let w := w.log (.api (.DescribeClusters clusterArns))
    match svc.DescribeClusters clusterArns with
    | .error err => (.done (cluster, some (Errorf "failed to describe clusters: " err)), w)
    | .ok clusters =>
      -- Display selection to user
      match printClusters 0 clusters w with
      | (.panic p, w) => (.panic p, w)
      | (.fatal m, w) => (.fatal m, w)
      | (.done (), w) =>
        -- Fetch selection from user
        let w := w.print "\nSelect an ECS Cluster: "
        match Scanln w with
        | (.error err, w) => (.done (cluster, some (Errorf "failed to get user input: " err)), w)
        | (.ok input, w) =>
          match Atoi input with
          | .error err =>
            (.done (cluster, some (Errorf "selection was not a number: " (.num err))), w)
          | .ok selection =>
            if selection < 0 ∨ selection > (clusters.length : Int) then
              (.fatal "selection out of range", w)
            else
              match clusters[selection.toNat]? with
              | some c => (.done (c, none), w)
              | none => (.panic (.indexOutOfRange selection clusters.length), w)

/-- The inner loop `for _, container := range task.Containers` of
`selectClusterTask`. -/
def printContainerNames : List Container → World → Res Unit × World
  | [], w => (.done (), w)
  | container :: rest, w =>
    match container.Name with
    | none => (.panic .nilDeref, w)
    | some name => printContainerNames rest (w.print ("  * " ++ name ++ "\n"))

/-- The loop `for i, task := range r.Tasks` of `selectClusterTask`, from index
`i` on. -/
def printTasks : Nat → List Task → World → Res Unit × World
  | _, [], w => (.done (), w)
  | i, task :: rest, w =>
    match task.TaskArn with
    | none => (.panic .nilDeref, w)
    | some arn =>
      match printContainerNames task.Containers (w.print (toString i ++ " | " ++ arn ++ "\n")) with
      | (.panic p, w) => (.panic p, w)
      | (.fatal m, w) => (.fatal m, w)
      | (.done (), w) => printTasks (i + 1) rest w

/-- The function `selectClusterTask`. -/
def selectClusterTask (svc : Svc) (cluster : Cluster) (w : World) :
    Res (Task × Option GoError) × World :=
  let task : Task := {}
  -- List ECS Tasks
  let w := w.log (.api (.ListTasks cluster.ClusterArn))
  match svc.ListTasks cluster.ClusterArn with
  | .error err => (.done (task, some (Errorf "failed to list tasks: " err)), w)
  | .ok taskArns =>
    -- Describe ECS Tasks
    let w := w.log (.api (.DescribeTasks cluster.ClusterArn taskArns))
    match svc.DescribeTasks cluster.ClusterArn taskArns with
    | .error err => (.done (task, some (Errorf "failed to describe tasks: " err)), w)
    | .ok tasks =>
      -- Display selection to user
      match printTasks 0 tasks w with
      | (.panic p, w) => (.panic p, w)
      | (.fatal m, w) => (.fatal m, w)
      | (.done (), w) =>
        -- Fetch selection from user
        let w := w.print "\nSelect an ECS Task: "
        match Scanln w with
        | (.error err, w) => (.done (task, some (Errorf "failed to get user input: " err)), w)
        | (.ok input, w) =>
          match Atoi input with
          | .error err =>
            (.done (task, some (Errorf "selection was not a number: " (.num err))), w)
          | .ok selection =>
            if selection < 0 ∨ selection > (tasks.length : Int) then
              (.fatal "selection out of range", w)
            else
              match tasks[selection.toNat]? with
              | some t => (.done (t, none), w)
              | none => (.panic (.indexOutOfRange selection tasks.length), w)

/-- The loop `for i, c := range task.Containers` of `selectTaskContainer`, from
index `i` on. -/
def printContainers : Nat → List Container → World → Res Unit × World
  | _, [], w => (.done (), w)
  | i, c :: rest, w =>
    match c.Name with
    | none => (.panic .nilDeref, w)
    | some name => printContainers (i + 1) rest (w.print (toString i ++ " | " ++ name ++ "\n"))

/-- The function `selectTaskContainer`. -/
def selectTaskContainer (task : Task) (w : World) : Res (Container × Option GoError) × World :=
  let container : Container := {}
  if task.Containers.length = 1 then
    match task.Containers[0]? with
    | some c => (.done (c, none), w)
    | none => (.panic (.indexOutOfRange 0 task.Containers.length), w)
  else
    -- Display selection to user
    match printContainers 0 task.Containers w with
    | (.panic p, w) => (.panic p, w)
    | (.fatal m, w) => (.fatal m, w)
    | (.done (), w) =>
      -- Fetch selection from user
      let w := w.print "\nSelect a Container: "
      match Scanln w with
      | (.error err, w) => (.done (container, some (Errorf "failed to get user input: " err)), w)
      | (.ok input, w) =>
        match Atoi input with
        | .error err =>
          (.done (container, some (Errorf "selection was not a number: " (.num err))), w)
        | .ok selection =>
          if selection < 0 ∨ selection > (task.Containers.length : Int) then
            (.fatal "selection out of range", w)
          else
            match task.Containers[selection.toNat]? with
            | some c => (.done (c, none), w)
            | none => (.panic (.indexOutOfRange selection task.Containers.length), w)

/-! ## `main` -/

/-- What `main` receives from outside: the two flags, the configuration
loader followed by `ecs.NewFromConfig`, the outcome of running an external
command, and `strconv.Quote` for rendering messages. -/
structure Env where
  command : String := "sh"
  region : String := "ap-southeast-2"
  LoadDefaultConfig : String → Except GoError Svc
  Run : List String → Option GoError
  Quote : String → String

/-- The function `main`. -/
def main (env : Env) (w : World) : Res Unit × World :=
  -- Create AWS Config, create ECS Client
  match env.LoadDefaultConfig env.region with
  | .error err => (.fatal ("unable to load SDK config, " ++ err.Error env.Quote), w)
  | .ok svc =>
    -- Get the ECS Cluster
    match selectECSCluster svc w with
    | (.panic p, w) => (.panic p, w)
    | (.fatal m, w) => (.fatal m, w)
    | (.done (_, some err), w) =>
      (.fatal ("error selecting cluster: " ++ err.Error env.Quote ++ "\n"), w)
    | (.done (cluster, none), w) =>
      let w := w.print "\n"
      -- Get the Clusters Task
      match selectClusterTask svc cluster w with
      | (.panic p, w) => (.panic p, w)
      | (.fatal m, w) => (.fatal m, w)
      | (.done (_, some err), w) =>
        (.fatal ("error selecting task: " ++ err.Error env.Quote ++ "\n"), w)
      | (.done (task, none), w) =>
        let w := w.print "\n"
        -- Get the Tasks Container
        match selectTaskContainer task w with
        | (.panic p, w) => (.panic p, w)
        | (.fatal m, w) => (.fatal m, w)
        | (.done (_, some err), w) =>
          (.fatal ("error selecting container: " ++ err.Error env.Quote ++ "\n"), w)
        | (.done (container, none), w) =>
          let w := w.print "\n"
          -- Jump inside the container using aws cli tools
          match cluster.ClusterName, task.TaskArn, container.Name with
          | some clusterName, some taskArn, some name =>
            let argv := ["aws", "ecs", "execute-command", "--cluster", clusterName,
              "--task", taskArn, "--container", name, "--interactive", "--command", env.command]
            let w := w.log (.exec argv)
            match env.Run argv with
            | some err =>
              (.fatal ("error while running aws command: " ++ err.Error env.Quote ++ "\n"), w)
            | none => (.done (), w)
          | _, _, _ => (.panic .nilDeref, w)

/-! ## Vocabulary of the statements -/

/-- The statements the three pickers share, word for word, from the call of
`fmt.Scanln` to the final `return` (lines 49-63, 101-115 and 136-150), over
the displayed sequence `xs`; `zero` is the zero value declared at the top of
the picker. -/
def readSelection {α : Type} (zero : α) (xs : List α) (w : World) :
    Res (α × Option GoError) × World :=
  match Scanln w with
  | (.error err, w) => (.done (zero, some (Errorf "failed to get user input: " err)), w)
  | (.ok input, w) =>
    match Atoi input with
    | .error err => (.done (zero, some (Errorf "selection was not a number: " (.num err))), w)
    | .ok selection =>
      if selection < 0 ∨ selection > (xs.length : Int) then (.fatal "selection out of range", w)
      else
        match xs[selection.toNat]? with
        | some x => (.done (x, none), w)
        | none => (.panic (.indexOutOfRange selection xs.length), w)

/-- Every event of the list is a write to standard output. -/
def AllPrints (evs : List Event) : Prop := ∀ e ∈ evs, ∃ s, e = Event.print s

/-- The world `w` after the further events `evs`, the input untouched. -/
def World.after (w : World) (evs : List Event) : World :=
  { w with trace := w.trace ++ evs }

/-- The cluster picker gets the sequence `clusters` from the client and can
display it: both requests succeed and every cluster has a name. -/
def ClustersDisplayed (svc : Svc) (clusters : List Cluster) : Prop :=
  ∃ arns, svc.ListClusters = .ok arns ∧ svc.DescribeClusters arns = .ok clusters ∧
    ∀ c ∈ clusters, c.ClusterName.isSome = true

/-- The task picker gets the sequence `tasks` of `cluster` from the client and
can display it: both requests succeed, every task has an ARN and every
container of every task a name. -/
def TasksDisplayed (svc : Svc) (cluster : Cluster) (tasks : List Task) : Prop :=
  ∃ arns, svc.ListTasks cluster.ClusterArn = .ok arns ∧
    svc.DescribeTasks cluster.ClusterArn arns = .ok tasks ∧
    ∀ t ∈ tasks, t.TaskArn.isSome = true ∧ ∀ c ∈ t.Containers, c.Name.isSome = true

/-- The container picker displays the containers of `task`: the sequence does
not have exactly one element and every container has a name. -/
def ContainersDisplayed (task : Task) : Prop :=
  task.Containers.length ≠ 1 ∧ ∀ c ∈ task.Containers, c.Name.isSome = true

/-- The next call of `fmt.Scanln` reads the token `input`. -/
def NextInput (w : World) (input : String) : Prop :=
  w.stdin.head? = some (.ok input)

/-- The token `input` is no selection within `[0, n)`: `strconv.Atoi` rejects
it, or its value is negative or at least `n`. -/
def SelectionOutside (input : String) (n : Nat) : Prop :=
  (∃ e, Atoi input = .error e) ∨ ∃ v, Atoi input = .ok v ∧ (v < 0 ∨ (n : Int) ≤ v)

/-- The next call of `fmt.Scanln` delivers no token: the input is at its end or
the read fails (an empty line, a line of several words). -/
def ReadFails (w : World) : Prop := ∀ input, ¬ NextInput w input

/-- The line the picker reads next is no selection within `[0, n)`: the read
fails, or the token read is rejected by `strconv.Atoi`, negative, or at least
`n`. -/
def NoSelectionWithin (w : World) (n : Nat) : Prop :=
  ReadFails w ∨ ∃ input, NextInput w input ∧ SelectionOutside input n

/-- The argument vectors of the external commands run in a trace, in order. -/
def execs : List Event → List (List String)
  | [] => []
  | .exec argv :: rest => argv :: execs rest
  | _ :: rest => execs rest

/-! ## Sample data of the scenarios -/

/-- A client with the clusters `dev` and `prod`; the one task `arn:task/1` has
the containers `web` and `sidecar`. -/
def demoSvc : Svc where
  ListClusters := .ok ["arn:cluster/dev", "arn:cluster/prod"]
  DescribeClusters := fun _ =>
    .ok [{ ClusterName := some "dev", ClusterArn := some "arn:cluster/dev" },
         { ClusterName := some "prod", ClusterArn := some "arn:cluster/prod" }]
  ListTasks := fun _ => .ok ["arn:task/1"]
  DescribeTasks := fun _ _ =>
    .ok [{ TaskArn := some "arn:task/1",
           Containers := [{ Name := some "web" }, { Name := some "sidecar" }] }]

/-- A client with the single cluster `dev`, which runs no task. -/
def devSvc : Svc where
  ListClusters := .ok ["arn:cluster/dev"]
  DescribeClusters := fun _ => .ok [{ ClusterName := some "dev", ClusterArn := some "arn:cluster/dev" }]
  ListTasks := fun _ => .ok []
  DescribeTasks := fun _ _ => .ok []

/-- A client whose every request fails with `timeout`. -/
def downSvc : Svc where
  ListClusters := .error (.ext "timeout")
  DescribeClusters := fun _ => .error (.ext "timeout")
  ListTasks := fun _ => .error (.ext "timeout")
  DescribeTasks := fun _ _ => .error (.ext "timeout")

/-- The cluster `prod` of `demoSvc`. -/
def prodCluster : Cluster := { ClusterName := some "prod", ClusterArn := some "arn:cluster/prod" }

/-- The task of `demoSvc`, with the containers `web` and `sidecar`. -/
def demoTask : Task :=
  { TaskArn := some "arn:task/1", Containers := [{ Name := some "web" }, { Name := some "sidecar" }] }

/-- A task with the single container `only`. -/
def onlyTask : Task := { TaskArn := some "arn:task/2", Containers := [{ Name := some "only" }] }

/-- A task without containers. -/
def emptyTask : Task := { TaskArn := some "arn:task/3", Containers := [] }

/-- A console on which the lines `lines` are typed, nothing done so far. -/
def typed (lines : List String) : World := { stdin := lines.map .ok, trace := [] }

/-- A console on which an empty line is typed: `fmt.Scanln` fails with
`unexpected newline`. -/
def blankLine : World := { stdin := [.error (.ext "unexpected newline")], trace := [] }

/-- An environment with the default flags whose client is `svc` and whose
external command succeeds; messages show the rejected text as it is. -/
def demoEnv (svc : Svc) : Env where
  LoadDefaultConfig := fun _ => .ok svc
  Run := fun _ => none
  Quote := fun s => s

/-! ## Lemmas on the display loops -/

theorem world_after_nil (w : World) : w.after [] = w := by
  simp [World.after]

theorem world_after_after (w : World) (a b : List Event) :
    (w.after a).after b = w.after (a ++ b) := by
  simp [World.after, List.append_assoc]

theorem world_print_eq (w : World) (s : String) : w.print s = w.after [.print s] := rfl

theorem world_log_eq (w : World) (e : Event) : w.log e = w.after [e] := rfl

theorem allPrints_append {a b : List Event} (ha : AllPrints a) (hb : AllPrints b) :
    AllPrints (a ++ b) := by
  intro e he
  rcases List.mem_append.mp he with h | h
  · exact ha e h
  · exact hb e h

theorem allPrints_single (s : String) : AllPrints [.print s] := by
  intro e he
  exact ⟨s, by simpa using he⟩

theorem printClusters_done (cs : List Cluster) :
    ∀ (i : Nat) (w : World), (∀ c ∈ cs, c.ClusterName.isSome = true) →
      ∃ evs, AllPrints evs ∧ printClusters i cs w = (.done (), w.after evs) := by
  induction cs with
  | nil => intro i w _; exact ⟨[], by simp [AllPrints], by simp [printClusters, world_after_nil]⟩
  | cons c rest ih =>
    intro i w h
    obtain ⟨name, hname⟩ := Option.isSome_iff_exists.mp (h c (List.mem_cons_self _ _))
    obtain ⟨evs, hp, he⟩ := ih (i + 1) (w.print (toString i ++ " | " ++ name ++ "\n"))
      (fun c hc => h c (List.mem_cons_of_mem _ hc))
    simp only [world_print_eq, world_after_after, List.singleton_append] at he
    refine ⟨.print (toString i ++ " | " ++ name ++ "\n") :: evs, ?_, ?_⟩
    · exact allPrints_append (allPrints_single _) hp
    · simp only [printClusters, hname, he, world_print_eq, world_after_after, List.singleton_append]

theorem printContainers_done (cs : List Container) :
    ∀ (i : Nat) (w : World), (∀ c ∈ cs, c.Name.isSome = true) →
      ∃ evs, AllPrints evs ∧ printContainers i cs w = (.done (), w.after evs) := by
  induction cs with
  | nil => intro i w _; exact ⟨[], by simp [AllPrints], by simp [printContainers, world_after_nil]⟩
  | cons c rest ih =>
    intro i w h
    obtain ⟨name, hname⟩ := Option.isSome_iff_exists.mp (h c (List.mem_cons_self _ _))
    obtain ⟨evs, hp, he⟩ := ih (i + 1) (w.print (toString i ++ " | " ++ name ++ "\n"))
      (fun c hc => h c (List.mem_cons_of_mem _ hc))
    simp only [world_print_eq, world_after_after, List.singleton_append] at he
    refine ⟨.print (toString i ++ " | " ++ name ++ "\n") :: evs, ?_, ?_⟩
    · exact allPrints_append (allPrints_single _) hp
    · simp only [printContainers, hname, he, world_print_eq, world_after_after,
        List.singleton_append]

theorem printContainerNames_done (cs : List Container) :
    ∀ (w : World), (∀ c ∈ cs, c.Name.isSome = true) →
      ∃ evs, AllPrints evs ∧ printContainerNames cs w = (.done (), w.after evs) := by
  induction cs with
  | nil => intro w _; exact ⟨[], by simp [AllPrints], by simp [printContainerNames, world_after_nil]⟩
  | cons c rest ih =>
    intro w h
    obtain ⟨name, hname⟩ := Option.isSome_iff_exists.mp (h c (List.mem_cons_self _ _))
    obtain ⟨evs, hp, he⟩ := ih (w.print ("  * " ++ name ++ "\n"))
      (fun c hc => h c (List.mem_cons_of_mem _ hc))
    simp only [world_print_eq, world_after_after, List.singleton_append] at he
    refine ⟨.print ("  * " ++ name ++ "\n") :: evs, ?_, ?_⟩
    · exact allPrints_append (allPrints_single _) hp
    · simp only [printContainerNames, hname, he, world_print_eq, world_after_after,
        List.singleton_append]

theorem printTasks_done (ts : List Task) :
    ∀ (i : Nat) (w : World),
      (∀ t ∈ ts, t.TaskArn.isSome = true ∧ ∀ c ∈ t.Containers, c.Name.isSome = true) →
      ∃ evs, AllPrints evs ∧ printTasks i ts w = (.done (), w.after evs) := by
  induction ts with
  | nil => intro i w _; exact ⟨[], by simp [AllPrints], by simp [printTasks, world_after_nil]⟩
  | cons t rest ih =>
    intro i w h
    obtain ⟨harn, hcs⟩ := h t (List.mem_cons_self _ _)
    obtain ⟨arn, harn⟩ := Option.isSome_iff_exists.mp harn
    obtain ⟨evs1, hp1, he1⟩ :=
      printContainerNames_done t.Containers (w.print (toString i ++ " | " ++ arn ++ "\n")) hcs
    obtain ⟨evs2, hp2, he2⟩ :=
      ih (i + 1) ((w.print (toString i ++ " | " ++ arn ++ "\n")).after evs1)
        (fun t ht => h t (List.mem_cons_of_mem _ ht))
    simp only [world_print_eq, world_after_after, List.singleton_append] at he1 he2
    refine ⟨.print (toString i ++ " | " ++ arn ++ "\n") :: (evs1 ++ evs2), ?_, ?_⟩
    · exact allPrints_append (allPrints_single _) (allPrints_append hp1 hp2)
    · simp only [printTasks, harn, he1, he2, world_print_eq, world_after_after,
        List.singleton_append, List.cons_append, List.append_assoc]

/-! ## Each picker, once its menu is displayed, is `readSelection` -/

theorem selectECSCluster_displayed (svc : Svc) (w : World) (clusters : List Cluster)
    (h : ClustersDisplayed svc clusters) :
    ∃ arns evs, svc.ListClusters = .ok arns ∧ AllPrints evs ∧
      selectECSCluster svc w = readSelection ({} : Cluster) clusters
        (w.after (.api .ListClusters :: .api (.DescribeClusters arns) :: evs)) := by
  obtain ⟨arns, hl, hd, hn⟩ := h
  obtain ⟨evs, hp, he⟩ := printClusters_done clusters 0
    ((w.log (.api .ListClusters)).log (.api (.DescribeClusters arns))) hn
  simp only [world_log_eq, world_after_after, List.singleton_append] at he
  refine ⟨arns, evs ++ [.print "\nSelect an ECS Cluster: "], hl,
    allPrints_append hp (allPrints_single _), ?_⟩
  simp only [selectECSCluster, readSelection, hl, hd, he, world_print_eq, world_log_eq,
    world_after_after, List.singleton_append, List.cons_append, List.nil_append]
  generalize Scanln _ = r
  rcases r with ⟨_ | input, w1⟩
  · rfl
  · dsimp only
    cases Atoi input with
    | error e => rfl
    | ok sel =>
      dsimp only
      split_ifs
      · rfl
      · cases clusters[sel.toNat]? <;> rfl

theorem selectClusterTask_displayed (svc : Svc) (cluster : Cluster) (w : World)
    (tasks : List Task) (h : TasksDisplayed svc cluster tasks) :
    ∃ arns evs, svc.ListTasks cluster.ClusterArn = .ok arns ∧ AllPrints evs ∧
      selectClusterTask svc cluster w = readSelection ({} : Task) tasks
        (w.after (.api (.ListTasks cluster.ClusterArn) ::
          .api (.DescribeTasks cluster.ClusterArn arns) :: evs)) := by
  obtain ⟨arns, hl, hd, hn⟩ := h
  obtain ⟨evs, hp, he⟩ := printTasks_done tasks 0
    ((w.log (.api (.ListTasks cluster.ClusterArn))).log
      (.api (.DescribeTasks cluster.ClusterArn arns))) hn
  simp only [world_log_eq, world_after_after, List.singleton_append] at he
  refine ⟨arns, evs ++ [.print "\nSelect an ECS Task: "], hl,
    allPrints_append hp (allPrints_single _), ?_⟩
  simp only [selectClusterTask, readSelection, hl, hd, he, world_print_eq, world_log_eq,
    world_after_after, List.singleton_append, List.cons_append, List.nil_append]
  generalize Scanln _ = r
  rcases r with ⟨_ | input, w1⟩
  · rfl
  · dsimp only
    cases Atoi input with
    | error e => rfl
    | ok sel =>
      dsimp only
      split_ifs
      · rfl
      · cases tasks[sel.toNat]? <;> rfl

theorem selectTaskContainer_displayed (task : Task) (w : World)
    (h : ContainersDisplayed task) :
    ∃ evs, AllPrints evs ∧
      selectTaskContainer task w =
        readSelection ({} : Container) task.Containers (w.after evs) := by
  obtain ⟨hlen, hn⟩ := h
  obtain ⟨evs, hp, he⟩ := printContainers_done task.Containers 0 w hn
  refine ⟨evs ++ [.print "\nSelect a Container: "],
    allPrints_append hp (allPrints_single _), ?_⟩
  simp only [selectTaskContainer, readSelection, hlen, if_false, he, world_print_eq,
    world_after_after]
  generalize Scanln _ = r
  rcases r with ⟨_ | input, w1⟩
  · rfl
  · dsimp only
    cases Atoi input with
    | error e => rfl
    | ok sel =>
      dsimp only
      split_ifs
      · rfl
      · cases task.Containers[sel.toNat]? <;> rfl

/-! ## Lemmas on `Scanln` and `readSelection` -/

theorem nextInput_after (w : World) (evs : List Event) (input : String)
    (h : NextInput w input) : NextInput (w.after evs) input := h

theorem scanln_world (w : World) :
    (Scanln w).2 = { stdin := w.stdin.tail, trace := w.trace ++ [.scanln] } := by
  unfold Scanln
  cases h : w.stdin <;> simp [World.log, h]

theorem scanln_next (w : World) (input : String) (h : NextInput w input) :
    (Scanln w).1 = .ok input := by
  unfold Scanln
  unfold NextInput at h
  cases hs : w.stdin with
  | nil => simp [hs] at h
  | cons r rest => simp [hs] at h; simp [h]

theorem readSelection_world {α : Type} (zero : α) (xs : List α) (w : World) :
    (readSelection zero xs w).2 = (Scanln w).2 := by
  unfold readSelection
  rcases Scanln w with ⟨_ | input, w1⟩
  · rfl
  · dsimp only
    cases Atoi input with
    | error e => rfl
    | ok sel =>
      dsimp only
      split_ifs
      · rfl
      · cases xs[sel.toNat]? <;> rfl

theorem readSelection_next {α : Type} (zero : α) (xs : List α) (w : World) (input : String)
    (h : NextInput w input) :
    (readSelection zero xs w).1 =
      match Atoi input with
      | .error err => .done (zero, some (Errorf "selection was not a number: " (.num err)))
      | .ok selection =>
        if selection < 0 ∨ selection > (xs.length : Int) then .fatal "selection out of range"
        else
          match xs[selection.toNat]? with
          | some x => .done (x, none)
          | none => .panic (.indexOutOfRange selection xs.length) := by
  have h1 := scanln_next w input h
  unfold readSelection
  rcases hS : Scanln w with ⟨r, w1⟩
  rw [hS] at h1
  dsimp only at h1
  subst h1
  dsimp only
  cases Atoi input with
  | error e => rfl
  | ok sel =>
    dsimp only
    split_ifs
    · rfl
    · cases xs[sel.toNat]? <;> rfl

theorem readSelection_in_range {α : Type} (zero : α) (xs : List α) (w : World)
    (input : String) (i : Int) (h : NextInput w input) (ha : Atoi input = .ok i)
    (h0 : 0 ≤ i) (hlt : i < xs.length) :
    ∃ x, xs[i.toNat]? = some x ∧ (readSelection zero xs w).1 = .done (x, none) := by
  have hi : i.toNat < xs.length := by omega
  refine ⟨xs[i.toNat], List.getElem?_eq_getElem hi, ?_⟩
  rw [readSelection_next zero xs w input h, ha]
  have hng : ¬ (i < 0 ∨ i > (xs.length : Int)) := by omega
  simp only [hng, if_false, List.getElem?_eq_getElem hi]

theorem readSelection_at_length {α : Type} (zero : α) (xs : List α) (w : World)
    (input : String) (h : NextInput w input) (ha : Atoi input = .ok (xs.length : Int)) :
    (readSelection zero xs w).1 = .panic (.indexOutOfRange xs.length xs.length) := by
  rw [readSelection_next zero xs w input h, ha]
  have hng : ¬ ((xs.length : Int) < 0 ∨ (xs.length : Int) > (xs.length : Int)) := by omega
  simp only [hng, if_false, Int.toNat_ofNat, List.getElem?_eq_none (Nat.le_refl _)]

theorem readSelection_beyond {α : Type} (zero : α) (xs : List α) (w : World)
    (input : String) (v : Int) (h : NextInput w input) (ha : Atoi input = .ok v)
    (hv : v < 0 ∨ (xs.length : Int) < v) :
    (readSelection zero xs w).1 = .fatal "selection out of range" := by
  rw [readSelection_next zero xs w input h, ha]
  have hng : (v < 0 ∨ v > (xs.length : Int)) := by omega
  simp only [hng, if_true]

theorem readSelection_rejected {α : Type} (zero : α) (xs : List α) (w : World)
    (input : String) (e : NumError) (h : NextInput w input) (ha : Atoi input = .error e) :
    (readSelection zero xs w).1 =
      .done (zero, some (Errorf "selection was not a number: " (.num e))) := by
  rw [readSelection_next zero xs w input h, ha]

theorem readSelection_outside {α : Type} (zero : α) (xs : List α) (w : World)
    (input : String) (h : NextInput w input) (ho : SelectionOutside input xs.length) :
    ∀ x, (readSelection zero xs w).1 ≠ .done (x, none) := by
  intro x
  rcases ho with ⟨e, he⟩ | ⟨v, hv, hr⟩
  · rw [readSelection_rejected zero xs w input e h he]
    simp
  · rcases lt_trichotomy v (xs.length : Int) with hlt | heq | hgt
    · rw [readSelection_beyond zero xs w input v h hv (by omega)]
      simp
    · subst heq
      rw [readSelection_at_length zero xs w input h hv]
      simp
    · rw [readSelection_beyond zero xs w input v h hv (by omega)]
      simp

theorem main_stops_at_cluster (env : Env) (svc : Svc) (w : World)
    (hc : env.LoadDefaultConfig env.region = .ok svc)
    (h : ∀ c, (selectECSCluster svc w).1 ≠ .done (c, none)) :
    (main env w).1 ≠ .done () ∧ (main env w).2 = (selectECSCluster svc w).2 := by
  unfold main
  rw [hc]
  dsimp only
  rcases hS : selectECSCluster svc w with ⟨r, w1⟩
  rw [hS] at h
  rcases r with ⟨c, _ | err⟩ | m | p
  · exact absurd rfl (h c)
  · simp
  · simp
  · simp

theorem main_stops_at_task (env : Env) (svc : Svc) (w w1 : World) (cluster : Cluster)
    (hc : env.LoadDefaultConfig env.region = .ok svc)
    (h1 : selectECSCluster svc w = (.done (cluster, none), w1))
    (h : ∀ t, (selectClusterTask svc cluster (w1.print "\n")).1 ≠ .done (t, none)) :
    (main env w).1 ≠ .done () ∧
      (main env w).2 = (selectClusterTask svc cluster (w1.print "\n")).2 := by
  unfold main
  rw [hc]
  dsimp only
  rw [h1]
  dsimp only
  rcases hS : selectClusterTask svc cluster (w1.print "\n") with ⟨r, w2⟩
  rw [hS] at h
  rcases r with ⟨t, _ | err⟩ | m | p
  · exact absurd rfl (h t)
  · simp
  · simp
  · simp

theorem main_stops_at_container (env : Env) (svc : Svc) (w w1 w2 : World) (cluster : Cluster)
    (task : Task) (hc : env.LoadDefaultConfig env.region = .ok svc)
    (h1 : selectECSCluster svc w = (.done (cluster, none), w1))
    (h2 : selectClusterTask svc cluster (w1.print "\n") = (.done (task, none), w2))
    (h : ∀ c, (selectTaskContainer task (w2.print "\n")).1 ≠ .done (c, none)) :
    (main env w).1 ≠ .done () ∧
      (main env w).2 = (selectTaskContainer task (w2.print "\n")).2 := by
  unfold main
  rw [hc]
  dsimp only
  rw [h1]
  dsimp only
  rw [h2]
  dsimp only
  rcases hS : selectTaskContainer task (w2.print "\n") with ⟨r, w3⟩
  rw [hS] at h
  rcases r with ⟨c, _ | err⟩ | m | p
  · exact absurd rfl (h c)
  · simp
  · simp
  · simp

theorem scanCount_allPrints {evs : List Event} (h : AllPrints evs) : scanCount evs = 0 := by
  unfold scanCount
  rw [List.count_eq_zero]
  intro hmem
  obtain ⟨s, hs⟩ := h _ hmem
  cases hs

theorem readSelection_read_failure {α : Type} (zero : α) (xs : List α) (w : World)
    (e : GoError) (h : w.stdin.head? = some (.error e)) :
    (readSelection zero xs w).1 = .done (zero, some (Errorf "failed to get user input: " e)) := by
  unfold readSelection Scanln
  cases hs : w.stdin with
  | nil => simp [hs] at h
  | cons r rest =>
    simp only [hs, List.head?_cons, Option.some.injEq] at h
    subst h
    rfl

theorem readSelection_nil_never_selects {α : Type} (zero : α) (w : World) :
    ∀ x, (readSelection zero ([] : List α) w).1 ≠ .done (x, none) := by
  intro x
  unfold readSelection
  rcases Scanln w with ⟨_ | input, w1⟩
  · simp
  · dsimp only
    cases Atoi input with
    | error e => simp
    | ok sel =>
      dsimp only
      split_ifs
      · simp
      · simp

theorem selectTaskContainer_empty (task : Task) (w : World) (h : task.Containers = []) :
    selectTaskContainer task w =
      readSelection ({} : Container) [] (w.print "\nSelect a Container: ") := by
  simp only [selectTaskContainer, readSelection, h, printContainers, List.length_nil]
  simp only [Nat.zero_ne_one, if_false]
  generalize Scanln _ = r
  rcases r with ⟨_ | input, w1⟩
  · rfl
  · dsimp only
    cases Atoi input with
    | error e => rfl
    | ok sel =>
      dsimp only
      split_ifs
      · rfl
      · rfl

theorem execs_append (a b : List Event) : execs (a ++ b) = execs a ++ execs b := by
  induction a with
  | nil => rfl
  | cons e rest ih => cases e <;> simp [execs, ih]

theorem execs_allPrints {evs : List Event} (h : AllPrints evs) : execs evs = [] := by
  induction evs with
  | nil => rfl
  | cons e rest ih =>
    obtain ⟨s, hs⟩ := h e (List.mem_cons_self _ _)
    subst hs
    simpa [execs] using ih (fun e he => h e (List.mem_cons_of_mem _ he))

theorem printClusters_execs (cs : List Cluster) :
    ∀ (i : Nat) (w : World),
      execs (printClusters i cs w).2.trace = execs w.trace := by
  induction cs with
  | nil => intro i w; rfl
  | cons c rest ih =>
    intro i w
    unfold printClusters
    cases c.ClusterName with
    | none => rfl
    | some name =>
      dsimp only
      rw [ih]
      simp [World.print, World.log, execs_append, execs]

theorem printContainers_execs (cs : List Container) :
    ∀ (i : Nat) (w : World),
      execs (printContainers i cs w).2.trace = execs w.trace := by
  induction cs with
  | nil => intro i w; rfl
  | cons c rest ih =>
    intro i w
    unfold printContainers
    cases c.Name with
    | none => rfl
    | some name =>
      dsimp only
      rw [ih]
      simp [World.print, World.log, execs_append, execs]

theorem printContainerNames_execs (cs : List Container) :
    ∀ (w : World), execs (printContainerNames cs w).2.trace = execs w.trace := by
  induction cs with
  | nil => intro w; rfl
  | cons c rest ih =>
    intro w
    unfold printContainerNames
    cases c.Name with
    | none => rfl
    | some name =>
      dsimp only
      rw [ih]
      simp [World.print, World.log, execs_append, execs]

theorem printTasks_execs (ts : List Task) :
    ∀ (i : Nat) (w : World), execs (printTasks i ts w).2.trace = execs w.trace := by
  induction ts with
  | nil => intro i w; rfl
  | cons t rest ih =>
    intro i w
    unfold printTasks
    cases t.TaskArn with
    | none => rfl
    | some arn =>
      dsimp only
      have h1 := printContainerNames_execs t.Containers
        (w.print (toString i ++ " | " ++ arn ++ "\n"))
      rcases hP : printContainerNames t.Containers
        (w.print (toString i ++ " | " ++ arn ++ "\n")) with ⟨r, wp⟩
      rw [hP] at h1
      have h2 : execs wp.trace = execs w.trace := by
        rw [h1]
        simp [World.print, World.log, execs_append, execs]
      rcases r with ⟨⟩ | m | p
      · dsimp only
        rw [ih, h2]
      · exact h2
      · exact h2

theorem scanln_execs (w : World) : execs (Scanln w).2.trace = execs w.trace := by
  rw [scanln_world]
  simp [execs_append, execs]

theorem selectECSCluster_execs (svc : Svc) (w : World) :
    execs (selectECSCluster svc w).2.trace = execs w.trace := by
  unfold selectECSCluster
  cases svc.ListClusters with
  | error e => simp [World.log, execs_append, execs]
  | ok arns =>
    dsimp only
    cases svc.DescribeClusters arns with
    | error e => simp [World.log, execs_append, execs]
    | ok clusters =>
      dsimp only
      have h1 := printClusters_execs clusters 0
        ((w.log (.api .ListClusters)).log (.api (.DescribeClusters arns)))
      rcases hP : printClusters 0 clusters
        ((w.log (.api .ListClusters)).log (.api (.DescribeClusters arns))) with ⟨r, wp⟩
      rw [hP] at h1
      have h2 : execs wp.trace = execs w.trace := by
        rw [h1]
        simp [World.log, execs_append, execs]
      rcases r with ⟨⟩ | m | p
      · dsimp only
        have h3 := scanln_execs (wp.print "\nSelect an ECS Cluster: ")
        rcases hS : Scanln (wp.print "\nSelect an ECS Cluster: ") with ⟨r, ws⟩
        rw [hS] at h3
        have h4 : execs ws.trace = execs w.trace := by
          rw [h3, ← h2]
          simp [World.print, World.log, execs_append, execs]
        rcases r with e | input
        · exact h4
        · dsimp only
          cases Atoi input with
          | error e => exact h4
          | ok sel =>
            dsimp only
            split_ifs
            · exact h4
            · cases clusters[sel.toNat]? <;> exact h4
      · exact h2
      · exact h2

theorem selectClusterTask_execs (svc : Svc) (cluster : Cluster) (w : World) :
    execs (selectClusterTask svc cluster w).2.trace = execs w.trace := by
  unfold selectClusterTask
  cases svc.ListTasks cluster.ClusterArn with
  | error e => simp [World.log, execs_append, execs]
  | ok arns =>
    dsimp only
    cases svc.DescribeTasks cluster.ClusterArn arns with
    | error e => simp [World.log, execs_append, execs]
    | ok tasks =>
      dsimp only
      have h1 := printTasks_execs tasks 0
        ((w.log (.api (.ListTasks cluster.ClusterArn))).log
          (.api (.DescribeTasks cluster.ClusterArn arns)))
      rcases hP : printTasks 0 tasks
        ((w.log (.api (.ListTasks cluster.ClusterArn))).log
          (.api (.DescribeTasks cluster.ClusterArn arns))) with ⟨r, wp⟩
      rw [hP] at h1
      have h2 : execs wp.trace = execs w.trace := by
        rw [h1]
        simp [World.log, execs_append, execs]
      rcases r with ⟨⟩ | m | p
      · dsimp only
        have h3 := scanln_execs (wp.print "\nSelect an ECS Task: ")
        rcases hS : Scanln (wp.print "\nSelect an ECS Task: ") with ⟨r, ws⟩
        rw [hS] at h3
        have h4 : execs ws.trace = execs w.trace := by
          rw [h3, ← h2]
          simp [World.print, World.log, execs_append, execs]
        rcases r with e | input
        · exact h4
        · dsimp only
          cases Atoi input with
          | error e => exact h4
          | ok sel =>
            dsimp only
            split_ifs
            · exact h4
            · cases tasks[sel.toNat]? <;> exact h4
      · exact h2
      · exact h2

theorem selectTaskContainer_execs (task : Task) (w : World) :
    execs (selectTaskContainer task w).2.trace = execs w.trace := by
  unfold selectTaskContainer
  dsimp only
  split_ifs with hlen
  · cases task.Containers[0]? <;> rfl
  · have h2 := printContainers_execs task.Containers 0 w
    rcases hP : printContainers 0 task.Containers w with ⟨r, wp⟩
    rw [hP] at h2
    dsimp only at h2
    rcases r with ⟨⟩ | m | p
    · dsimp only
      have h3 := scanln_execs (wp.print "\nSelect a Container: ")
      rcases hS : Scanln (wp.print "\nSelect a Container: ") with ⟨r, ws⟩
      rw [hS] at h3
      have h4 : execs ws.trace = execs w.trace := by
        rw [h3, ← h2]
        simp [World.print, World.log, execs_append, execs]
      rcases r with e | input
      · exact h4
      · dsimp only
        cases Atoi input with
        | error e => exact h4
        | ok sel =>
          dsimp only
          split_ifs
          · exact h4
          · cases task.Containers[sel.toNat]? <;> exact h4
    · exact h2
    · exact h2

/-- A value accepted by `Atoi` fits Go's 64-bit `int`, so the comparisons of
the pickers on `selection` are comparisons of mathematical integers. -/
theorem Atoi_ok_bounds (s : String) (v : Int) (h : Atoi s = .ok v) :
    -(2 : Int) ^ 63 ≤ v ∧ v < (2 : Int) ^ 63 := by
  unfold Atoi at h
  split at h
  · cases h
  · rename_i c rest hs
    dsimp only at h
    generalize (if c = '+' ∨ c = '-' then rest else c :: rest) = digits at h
    generalize (decide (c = '-')) = neg at h
    by_cases h1 : digits = []
    · rw [if_pos h1] at h
      cases h
    · rw [if_neg h1] at h
      cases hp : parseUintLoop intSize digits 0 with
      | error k => rw [hp] at h; cases h
      | ok un =>
        rw [hp] at h
        dsimp only at h
        by_cases h2 : neg = false ∧ un ≥ 2 ^ (intSize - 1)
        · rw [if_pos h2] at h
          cases h
        · rw [if_neg h2] at h
          by_cases h3 : neg = true ∧ un > 2 ^ (intSize - 1)
          · rw [if_pos h3] at h
            cases h
          · rw [if_neg h3] at h
            simp only [Except.ok.injEq] at h
            subst h
            simp only [intSize] at h2 h3
            norm_num at h2 h3
            cases neg
            · simp only [Bool.false_eq_true, if_false]
              simp at h2
              omega
            · simp only [if_true]
              simp at h3
              omega

theorem readFails_after (w : World) (evs : List Event) (h : ReadFails w) :
    ReadFails (w.after evs) := h

theorem readSelection_read_fails {α : Type} (zero : α) (xs : List α) (w : World)
    (h : ReadFails w) :
    ∃ e, (readSelection zero xs w).1 =
      .done (zero, some (Errorf "failed to get user input: " e)) := by
  unfold readSelection Scanln
  cases hs : w.stdin with
  | nil => exact ⟨.ext "EOF", rfl⟩
  | cons r rest =>
    cases r with
    | error e => exact ⟨e, rfl⟩
    | ok input =>
      exact absurd (show NextInput w input by simp [NextInput, hs]) (h input)

theorem readSelection_no_selection {α : Type} (zero : α) (xs : List α) (w : World)
    (h : NoSelectionWithin w xs.length) :
    ∀ x, (readSelection zero xs w).1 ≠ .done (x, none) := by
  rcases h with hf | ⟨input, hn, ho⟩
  · intro x
    obtain ⟨e, he⟩ := readSelection_read_fails zero xs w hf
    rw [he]
    simp
  · exact readSelection_outside zero xs w input hn ho

theorem noSelectionWithin_after (w : World) (evs : List Event) (n : Nat)
    (h : NoSelectionWithin w n) : NoSelectionWithin (w.after evs) n := h

/-! ## The claims -/

/-- C1: in each picker, over a displayed sequence of length N (for the
containers N is at least 2), an input that `strconv.Atoi` parses to an integer
`i` with `0 ≤ i ≤ N - 1` makes the picker return the element at index `i` of
the sequence together with a nil error. -/
theorem selection_in_range_returns_element :
    (∀ (svc : Svc) (w : World) (clusters : List Cluster) (input : String) (i : Int),
      ClustersDisplayed svc clusters → NextInput w input → Atoi input = .ok i →
      0 ≤ i → i ≤ (clusters.length : Int) - 1 →
      ∃ c, clusters[i.toNat]? = some c ∧ (selectECSCluster svc w).1 = .done (c, none)) ∧
    (∀ (svc : Svc) (cluster : Cluster) (w : World) (tasks : List Task) (input : String)
      (i : Int),
      TasksDisplayed svc cluster tasks → NextInput w input → Atoi input = .ok i →
      0 ≤ i → i ≤ (tasks.length : Int) - 1 →
      ∃ t, tasks[i.toNat]? = some t ∧ (selectClusterTask svc cluster w).1 = .done (t, none)) ∧
    (∀ (task : Task) (w : World) (input : String) (i : Int),
      2 ≤ task.Containers.length → (∀ c ∈ task.Containers, c.Name.isSome = true) →
      NextInput w input → Atoi input = .ok i →
      0 ≤ i → i ≤ (task.Containers.length : Int) - 1 →
      ∃ c, task.Containers[i.toNat]? = some c ∧
        (selectTaskContainer task w).1 = .done (c, none)) := by
  refine ⟨?_, ?_, ?_⟩
  · intro svc w clusters input i hd hn ha h0 h1
    obtain ⟨arns, evs, _, _, he⟩ := selectECSCluster_displayed svc w clusters hd
    rw [he]
    exact readSelection_in_range _ _ _ input i (nextInput_after w _ input hn) ha h0 (by omega)
  · intro svc cluster w tasks input i hd hn ha h0 h1
    obtain ⟨arns, evs, _, _, he⟩ := selectClusterTask_displayed svc cluster w tasks hd
    rw [he]
    exact readSelection_in_range _ _ _ input i (nextInput_after w _ input hn) ha h0 (by omega)
  · intro task w input i hlen hnames hn ha h0 h1
    obtain ⟨evs, _, he⟩ := selectTaskContainer_displayed task w ⟨by omega, hnames⟩
    rw [he]
    exact readSelection_in_range _ _ _ input i (nextInput_after w _ input hn) ha h0 (by omega)

/-- Witness of C1: with the clusters `dev`, `prod` the input `1` selects `prod`;
with the containers `web`, `sidecar` the input `0` selects `web`. -/
theorem selection_in_range_returns_element_witness :
    (selectECSCluster demoSvc (typed ["1"])).1 = .done (prodCluster, none) ∧
    (selectTaskContainer demoTask (typed ["0"])).1 = .done ({ Name := some "web" }, none) := by
  constructor
  · obtain ⟨c, hc, h⟩ := selection_in_range_returns_element.1 demoSvc (typed ["1"])
      [{ ClusterName := some "dev", ClusterArn := some "arn:cluster/dev" }, prodCluster] "1" 1
      ⟨_, rfl, rfl, by decide⟩ rfl rfl (by decide) (by decide)
    rw [h]
    have : c = prodCluster := (Option.some.inj hc).symm
    rw [this]
  · obtain ⟨c, hc, h⟩ := selection_in_range_returns_element.2.2 demoTask (typed ["0"]) "0" 0
      (by decide) (by decide) rfl rfl (by decide) (by decide)
    rw [h]
    have : c = { Name := some "web" } := (Option.some.inj hc).symm
    rw [this]

/-- C2: in each picker, over a displayed sequence of length N, a line that
is no selection within `[0, N)` (a line `fmt.Scanln` cannot read as one token,
a token `strconv.Atoi` rejects, a negative integer, or an integer at least N,
N itself included) never makes the picker return an element with a nil error,
and `main` then ends by `log.Fatal` or a panic without any effect of a later
stage: the world it leaves is the one the picker left. -/
theorem selection_outside_never_returns_element :
    (∀ (svc : Svc) (w : World) (clusters : List Cluster),
      ClustersDisplayed svc clusters → NoSelectionWithin w clusters.length →
      (∀ c, (selectECSCluster svc w).1 ≠ .done (c, none)) ∧
      ∀ env : Env, env.LoadDefaultConfig env.region = .ok svc →
        (main env w).1 ≠ .done () ∧ (main env w).2 = (selectECSCluster svc w).2) ∧
    (∀ (svc : Svc) (cluster : Cluster) (w : World) (tasks : List Task),
      TasksDisplayed svc cluster tasks → NoSelectionWithin w tasks.length →
      (∀ t, (selectClusterTask svc cluster w).1 ≠ .done (t, none)) ∧
      ∀ (env : Env) (w0 w1 : World), env.LoadDefaultConfig env.region = .ok svc →
        selectECSCluster svc w0 = (.done (cluster, none), w1) → w = w1.print "\n" →
        (main env w0).1 ≠ .done () ∧ (main env w0).2 = (selectClusterTask svc cluster w).2) ∧
    (∀ (task : Task) (w : World),
      ContainersDisplayed task → NoSelectionWithin w task.Containers.length →
      (∀ c, (selectTaskContainer task w).1 ≠ .done (c, none)) ∧
      ∀ (env : Env) (svc : Svc) (cluster : Cluster) (w0 w1 w2 : World),
        env.LoadDefaultConfig env.region = .ok svc →
        selectECSCluster svc w0 = (.done (cluster, none), w1) →
        selectClusterTask svc cluster (w1.print "\n") = (.done (task, none), w2) →
        w = w2.print "\n" →
        (main env w0).1 ≠ .done () ∧ (main env w0).2 = (selectTaskContainer task w).2) := by
  refine ⟨?_, ?_, ?_⟩
  · intro svc w clusters hd ho
    have key : ∀ c, (selectECSCluster svc w).1 ≠ .done (c, none) := by
      obtain ⟨arns, evs, _, _, he⟩ := selectECSCluster_displayed svc w clusters hd
      rw [he]
      exact readSelection_no_selection _ _ _ (noSelectionWithin_after w _ _ ho)
    exact ⟨key, fun env hc => main_stops_at_cluster env svc w hc key⟩
  · intro svc cluster w tasks hd ho
    have key : ∀ t, (selectClusterTask svc cluster w).1 ≠ .done (t, none) := by
      obtain ⟨arns, evs, _, _, he⟩ := selectClusterTask_displayed svc cluster w tasks hd
      rw [he]
      exact readSelection_no_selection _ _ _ (noSelectionWithin_after w _ _ ho)
    refine ⟨key, ?_⟩
    intro env w0 w1 hc h1 hw
    subst hw
    exact main_stops_at_task env svc w0 w1 cluster hc h1 key
  · intro task w hd ho
    have key : ∀ c, (selectTaskContainer task w).1 ≠ .done (c, none) := by
      obtain ⟨evs, _, he⟩ := selectTaskContainer_displayed task w hd
      rw [he]
      exact readSelection_no_selection _ _ _ (noSelectionWithin_after w _ _ ho)
    refine ⟨key, ?_⟩
    intro env svc cluster w0 w1 w2 hc h1 h2 hw
    subst hw
    exact main_stops_at_container env svc w0 w1 w2 cluster task hc h1 h2 key

/-- Witness of C2: with the clusters `dev`, `prod`, neither the input `2` (the
length itself) nor an empty line returns a cluster, and `main` ends there
without a request for the tasks. -/
theorem selection_outside_never_returns_element_witness :
    (NoSelectionWithin (typed ["2"]) 2 ∧
      (∀ c, (selectECSCluster demoSvc (typed ["2"])).1 ≠ .done (c, none)) ∧
      (main (demoEnv demoSvc) (typed ["2"])).1 ≠ .done () ∧
      (main (demoEnv demoSvc) (typed ["2"])).2 = (selectECSCluster demoSvc (typed ["2"])).2) ∧
    (NoSelectionWithin blankLine 2 ∧
      (∀ c, (selectECSCluster demoSvc blankLine).1 ≠ .done (c, none)) ∧
      (main (demoEnv demoSvc) blankLine).1 ≠ .done () ∧
      (main (demoEnv demoSvc) blankLine).2 = (selectECSCluster demoSvc blankLine).2) :=
  have ho : NoSelectionWithin (typed ["2"]) 2 :=
    Or.inr ⟨"2", rfl, Or.inr ⟨2, rfl, Or.inr (by decide)⟩⟩
  have hb : NoSelectionWithin blankLine 2 :=
    Or.inl (fun input hn => by simp [NextInput, blankLine] at hn)
  have h := selection_outside_never_returns_element.1 demoSvc (typed ["2"])
    [{ ClusterName := some "dev", ClusterArn := some "arn:cluster/dev" }, prodCluster]
    ⟨_, rfl, rfl, by decide⟩ ho
  have h2 := selection_outside_never_returns_element.1 demoSvc blankLine
    [{ ClusterName := some "dev", ClusterArn := some "arn:cluster/dev" }, prodCluster]
    ⟨_, rfl, rfl, by decide⟩ hb
  ⟨⟨ho, h.1, h.2 (demoEnv demoSvc) rfl⟩, ⟨hb, h2.1, h2.2 (demoEnv demoSvc) rfl⟩⟩

/-- C3 (the code departs from it): with the single cluster `dev`, the input
`1` parses to 1, which is outside `[0, 1)`, yet `selectECSCluster` does not end
with the fatal message `selection out of range`: the check `selection >
len(r.Clusters)` lets 1 through and the indexing panics.  The input `5` of
the scenario does end with the fatal message. -/
theorem selectECSCluster_input_equal_length_not_fatal :
    Atoi "1" = .ok 1 ∧
    (selectECSCluster devSvc (typed ["1"])).1 = .panic (.indexOutOfRange 1 1) ∧
    (selectECSCluster devSvc (typed ["1"])).1 ≠ .fatal "selection out of range" ∧
    (selectECSCluster devSvc (typed ["5"])).1 = .fatal "selection out of range" := by
  refine ⟨rfl, rfl, ?_, rfl⟩
  decide

/-- C6: in each picker, over a displayed sequence, a token that `strconv.Atoi`
rejects with the error `e` makes the picker return the zero-valued element
together with the error of message `selection was not a number: ` followed by
the message of `e`; the picker neither ends by the fatal branch nor indexes
the sequence. -/
theorem rejected_token_returns_parse_error :
    (∀ (svc : Svc) (w : World) (clusters : List Cluster) (input : String) (e : NumError),
      ClustersDisplayed svc clusters → NextInput w input → Atoi input = .error e →
      (selectECSCluster svc w).1 =
        .done (({} : Cluster), some (Errorf "selection was not a number: " (.num e)))) ∧
    (∀ (svc : Svc) (cluster : Cluster) (w : World) (tasks : List Task) (input : String)
      (e : NumError),
      TasksDisplayed svc cluster tasks → NextInput w input → Atoi input = .error e →
      (selectClusterTask svc cluster w).1 =
        .done (({} : Task), some (Errorf "selection was not a number: " (.num e)))) ∧
    (∀ (task : Task) (w : World) (input : String) (e : NumError),
      ContainersDisplayed task → NextInput w input → Atoi input = .error e →
      (selectTaskContainer task w).1 =
        .done (({} : Container), some (Errorf "selection was not a number: " (.num e)))) ∧
    (∀ (e : NumError) (quote : String → String),
      (Errorf "selection was not a number: " (.num e)).Error quote =
        "selection was not a number: " ++ e.Error quote) := by
  refine ⟨?_, ?_, ?_, ?_⟩
  · intro svc w clusters input e hd hn ha
    obtain ⟨arns, evs, _, _, he⟩ := selectECSCluster_displayed svc w clusters hd
    rw [he]
    exact readSelection_rejected _ _ _ input e (nextInput_after w _ input hn) ha
  · intro svc cluster w tasks input e hd hn ha
    obtain ⟨arns, evs, _, _, he⟩ := selectClusterTask_displayed svc cluster w tasks hd
    rw [he]
    exact readSelection_rejected _ _ _ input e (nextInput_after w _ input hn) ha
  · intro task w input e hd hn ha
    obtain ⟨evs, _, he⟩ := selectTaskContainer_displayed task w hd
    rw [he]
    exact readSelection_rejected _ _ _ input e (nextInput_after w _ input hn) ha
  · intro e quote
    rfl

/-- Witness of C6: with the clusters `dev`, `prod` the input `abc` returns the
zero cluster and the parse error. -/
theorem rejected_token_returns_parse_error_witness :
    Atoi "abc" = .error ⟨"Atoi", "abc", .invalid⟩ ∧
    (selectECSCluster demoSvc (typed ["abc"])).1 =
      .done (({} : Cluster),
        some (Errorf "selection was not a number: " (.num ⟨"Atoi", "abc", .invalid⟩))) :=
  ⟨rfl, rejected_token_returns_parse_error.1 demoSvc (typed ["abc"])
    [{ ClusterName := some "dev", ClusterArn := some "arn:cluster/dev" }, prodCluster] "abc"
    ⟨"Atoi", "abc", .invalid⟩ ⟨_, rfl, rfl, by decide⟩ rfl rfl⟩

/-- C9: the bound check of each picker is `selection < 0 || selection >
length`, so over a displayed sequence of length N an input that parses to N
itself passes the check (the fatal branch `selection out of range` is not
taken), the lookup at index N finds nothing, and the picker ends by the
index-out-of-range panic. -/
theorem selection_equal_length_passes_check_and_panics :
    (∀ (svc : Svc) (w : World) (clusters : List Cluster) (input : String),
      ClustersDisplayed svc clusters → NextInput w input →
      Atoi input = .ok (clusters.length : Int) →
      clusters[clusters.length]? = none ∧
      (selectECSCluster svc w).1 ≠ .fatal "selection out of range" ∧
      (selectECSCluster svc w).1 = .panic (.indexOutOfRange clusters.length clusters.length)) ∧
    (∀ (svc : Svc) (cluster : Cluster) (w : World) (tasks : List Task) (input : String),
      TasksDisplayed svc cluster tasks → NextInput w input →
      Atoi input = .ok (tasks.length : Int) →
      tasks[tasks.length]? = none ∧
      (selectClusterTask svc cluster w).1 ≠ .fatal "selection out of range" ∧
      (selectClusterTask svc cluster w).1 =
        .panic (.indexOutOfRange tasks.length tasks.length)) ∧
    (∀ (task : Task) (w : World) (input : String),
      ContainersDisplayed task → NextInput w input →
      Atoi input = .ok (task.Containers.length : Int) →
      task.Containers[task.Containers.length]? = none ∧
      (selectTaskContainer task w).1 ≠ .fatal "selection out of range" ∧
      (selectTaskContainer task w).1 =
        .panic (.indexOutOfRange task.Containers.length task.Containers.length)) := by
  refine ⟨?_, ?_, ?_⟩
  · intro svc w clusters input hd hn ha
    obtain ⟨arns, evs, _, _, he⟩ := selectECSCluster_displayed svc w clusters hd
    have h := readSelection_at_length ({} : Cluster) clusters _ input
      (nextInput_after w (.api .ListClusters :: .api (.DescribeClusters arns) :: evs) input hn) ha
    rw [he, h]
    exact ⟨List.getElem?_eq_none (Nat.le_refl _), by simp, rfl⟩
  · intro svc cluster w tasks input hd hn ha
    obtain ⟨arns, evs, _, _, he⟩ := selectClusterTask_displayed svc cluster w tasks hd
    have h := readSelection_at_length ({} : Task) tasks _ input
      (nextInput_after w (.api (.ListTasks cluster.ClusterArn) ::
        .api (.DescribeTasks cluster.ClusterArn arns) :: evs) input hn) ha
    rw [he, h]
    exact ⟨List.getElem?_eq_none (Nat.le_refl _), by simp, rfl⟩
  · intro task w input hd hn ha
    obtain ⟨evs, _, he⟩ := selectTaskContainer_displayed task w hd
    have h := readSelection_at_length ({} : Container) task.Containers _ input
      (nextInput_after w evs input hn) ha
    rw [he, h]
    exact ⟨List.getElem?_eq_none (Nat.le_refl _), by simp, rfl⟩

/-- Witness of C9: with the clusters `dev`, `prod` the input `2` passes the
bound check and the picker panics at index 2. -/
theorem selection_equal_length_passes_check_and_panics_witness :
    Atoi "2" = .ok 2 ∧
    (selectECSCluster demoSvc (typed ["2"])).1 ≠ .fatal "selection out of range" ∧
    (selectECSCluster demoSvc (typed ["2"])).1 = .panic (.indexOutOfRange 2 2) :=
  ⟨rfl, (selection_equal_length_passes_check_and_panics.1 demoSvc (typed ["2"])
    [{ ClusterName := some "dev", ClusterArn := some "arn:cluster/dev" }, prodCluster] "2"
    ⟨_, rfl, rfl, by decide⟩ rfl rfl).2⟩

/-- C4: for a task whose container sequence has exactly one element,
`selectTaskContainer` returns that container with a nil error and leaves the
world as it was: no menu or prompt is printed, `fmt.Scanln` is not called and
the input stream is unchanged. -/
theorem single_container_selected_without_input (task : Task) (w : World)
    (h : task.Containers.length = 1) :
    ∃ c, task.Containers = [c] ∧ selectTaskContainer task w = (.done (c, none), w) := by
  obtain ⟨c, hc⟩ := List.length_eq_one.mp h
  refine ⟨c, hc, ?_⟩
  simp [selectTaskContainer, hc]

/-- Witness of C4: the task with the single container `only` selects `only`
on a console where nothing is typed, and nothing is printed or read. -/
theorem single_container_selected_without_input_witness :
    onlyTask.Containers.length = 1 ∧
    selectTaskContainer onlyTask (typed ["7", "8"]) =
      (.done ({ Name := some "only" }, none), typed ["7", "8"]) := by
  refine ⟨rfl, ?_⟩
  obtain ⟨c, hc, h⟩ := single_container_selected_without_input onlyTask (typed ["7", "8"]) rfl
  rw [h]
  have : c = { Name := some "only" } := by
    have h2 : [({ Name := some "only" } : Container)] = [c] := hc
    exact (List.head_eq_of_cons_eq h2).symm
  rw [this]

/-- C5: for a task with at least two containers, each with a name,
`selectTaskContainer` calls `fmt.Scanln` exactly once whatever the input is
(read failure, parse failure, out of range or success): the trace grows by
printed lines followed by one `scanln`, and the input stream loses its first
line. -/
theorem container_selection_reads_exactly_once (task : Task) (w : World)
    (hlen : 2 ≤ task.Containers.length)
    (hnames : ∀ c ∈ task.Containers, c.Name.isSome = true) :
    scanCount (selectTaskContainer task w).2.trace = scanCount w.trace + 1 ∧
    (selectTaskContainer task w).2.stdin = w.stdin.tail ∧
    ∃ evs, AllPrints evs ∧ (selectTaskContainer task w).2.trace = w.trace ++ evs ++ [.scanln] := by
  obtain ⟨evs, hp, he⟩ := selectTaskContainer_displayed task w ⟨by omega, hnames⟩
  have hw : (selectTaskContainer task w).2 =
      { stdin := w.stdin.tail, trace := w.trace ++ evs ++ [.scanln] } := by
    rw [he, readSelection_world, scanln_world]
    rfl
  rw [hw]
  refine ⟨?_, rfl, evs, hp, rfl⟩
  have h0 := scanCount_allPrints hp
  unfold scanCount at h0 ⊢
  simp [List.count_append, h0]

/-- Witness of C5: with the containers `web`, `sidecar` and the lines `0`, `1`
typed, one line is read and the line `1` is left. -/
theorem container_selection_reads_exactly_once_witness :
    scanCount (selectTaskContainer demoTask (typed ["0", "1"])).2.trace = 1 ∧
    (selectTaskContainer demoTask (typed ["0", "1"])).2.stdin = [.ok "1"] :=
  have h := container_selection_reads_exactly_once demoTask (typed ["0", "1"])
    (by decide) (by decide)
  ⟨h.1, h.2.1⟩

/-- C8: when the list request of `selectECSCluster` fails with `e`, the result
is the zero cluster and the error `failed to list clusters: ` followed by `e`,
and the only effect is the list request (no describe request, nothing printed,
no input read); when the describe request fails with `e`, the result is the
zero cluster and the error `failed to describe clusters: ` followed by `e`,
and the only effects are the two requests.  The same holds for
`selectClusterTask` with `failed to list tasks: ` and
`failed to describe tasks: `. -/
theorem list_or_describe_failure_is_returned :
    (∀ (svc : Svc) (w : World) (e : GoError), svc.ListClusters = .error e →
      selectECSCluster svc w =
        (.done (({} : Cluster), some (Errorf "failed to list clusters: " e)),
         { stdin := w.stdin, trace := w.trace ++ [.api .ListClusters] })) ∧
    (∀ (svc : Svc) (w : World) (arns : List String) (e : GoError),
      svc.ListClusters = .ok arns → svc.DescribeClusters arns = .error e →
      selectECSCluster svc w =
        (.done (({} : Cluster), some (Errorf "failed to describe clusters: " e)),
         { stdin := w.stdin,
           trace := w.trace ++ [.api .ListClusters, .api (.DescribeClusters arns)] })) ∧
    (∀ (svc : Svc) (cluster : Cluster) (w : World) (e : GoError),
      svc.ListTasks cluster.ClusterArn = .error e →
      selectClusterTask svc cluster w =
        (.done (({} : Task), some (Errorf "failed to list tasks: " e)),
         { stdin := w.stdin, trace := w.trace ++ [.api (.ListTasks cluster.ClusterArn)] })) ∧
    (∀ (svc : Svc) (cluster : Cluster) (w : World) (arns : List String) (e : GoError),
      svc.ListTasks cluster.ClusterArn = .ok arns →
      svc.DescribeTasks cluster.ClusterArn arns = .error e →
      selectClusterTask svc cluster w =
        (.done (({} : Task), some (Errorf "failed to describe tasks: " e)),
         { stdin := w.stdin,
           trace := w.trace ++ [.api (.ListTasks cluster.ClusterArn),
             .api (.DescribeTasks cluster.ClusterArn arns)] })) ∧
    (∀ (pre : String) (e : GoError) (quote : String → String),
      (Errorf pre e).Error quote = pre ++ e.Error quote) := by
  refine ⟨?_, ?_, ?_, ?_, ?_⟩
  · intro svc w e hl
    simp [selectECSCluster, hl, World.log]
  · intro svc w arns e hl hd
    simp [selectECSCluster, hl, hd, World.log]
  · intro svc cluster w e hl
    simp [selectClusterTask, hl, World.log]
  · intro svc cluster w arns e hl hd
    simp [selectClusterTask, hl, hd, World.log]
  · intro pre e quote
    rfl

/-- Witness of C8: against a client whose requests time out, the cluster
picker returns `failed to list clusters: timeout` after the list request
alone, the typed line unread. -/
theorem list_or_describe_failure_is_returned_witness :
    selectECSCluster downSvc (typed ["0"]) =
      (.done (({} : Cluster), some (Errorf "failed to list clusters: " (.ext "timeout"))),
       { stdin := [.ok "0"], trace := [.api .ListClusters] }) ∧
    (Errorf "failed to list clusters: " (.ext "timeout")).Error (fun s => s) =
      "failed to list clusters: timeout" :=
  ⟨list_or_describe_failure_is_returned.1 downSvc (typed ["0"]) (.ext "timeout") rfl, by decide⟩

/-- C10: for a task without containers `selectTaskContainer` does not take the
single-container shortcut: it prints the prompt and calls `fmt.Scanln` once,
and whatever the input it never returns a container with a nil error: a read
failure and a rejected token return an error, an integer other than 0 ends in
the fatal range check, and an input parsing to 0 (such as `0`) passes the
range check and panics indexing the empty sequence. -/
theorem empty_container_sequence_never_selects (task : Task) (w : World)
    (h : task.Containers = []) :
    (selectTaskContainer task w).2 =
      { stdin := w.stdin.tail,
        trace := w.trace ++ [.print "\nSelect a Container: ", .scanln] } ∧
    (∀ c, (selectTaskContainer task w).1 ≠ .done (c, none)) ∧
    (∀ e, w.stdin.head? = some (.error e) →
      (selectTaskContainer task w).1 =
        .done (({} : Container), some (Errorf "failed to get user input: " e))) ∧
    (∀ input e, NextInput w input → Atoi input = .error e →
      (selectTaskContainer task w).1 =
        .done (({} : Container), some (Errorf "selection was not a number: " (.num e)))) ∧
    (∀ input v, NextInput w input → Atoi input = .ok v → v ≠ 0 →
      (selectTaskContainer task w).1 = .fatal "selection out of range") ∧
    (∀ input, NextInput w input → Atoi input = .ok 0 →
      (selectTaskContainer task w).1 = .panic (.indexOutOfRange 0 0)) ∧
    Atoi "0" = .ok 0 := by
  rw [selectTaskContainer_empty task w h]
  refine ⟨?_, ?_, ?_, ?_, ?_, ?_, rfl⟩
  · rw [readSelection_world, scanln_world]
    simp [World.print, World.log]
  · exact readSelection_nil_never_selects _ _
  · intro e he
    exact readSelection_read_failure _ _ _ e he
  · intro input e hn ha
    exact readSelection_rejected _ _ _ input e hn ha
  · intro input v hn ha hv
    refine readSelection_beyond _ _ _ input v hn ha ?_
    simp only [List.length_nil, Nat.cast_zero]
    omega
  · intro input hn ha
    exact readSelection_at_length ({} : Container) [] _ input hn ha

/-- Witness of C10: the task without containers, the line `0` typed. -/
theorem empty_container_sequence_never_selects_witness :
    (selectTaskContainer emptyTask (typed ["0"])).2 =
      { stdin := [], trace := [.print "\nSelect a Container: ", .scanln] } ∧
    (selectTaskContainer emptyTask (typed ["0"])).1 = .panic (.indexOutOfRange 0 0) :=
  have h := empty_container_sequence_never_selects emptyTask (typed ["0"]) rfl
  ⟨h.1, h.2.2.2.2.2.1 "0" rfl rfl⟩

/-- C7: when the three pickers have selected a cluster of name `c`, a task of
ARN `t` and a container of name `n`, and the command flag is `s`, the last
thing `main` does is to run one external command, with exactly the argument
vector `aws ecs execute-command --cluster c --task t --container n
--interactive --command s`; it runs no other command. -/
theorem main_builds_execute_command (env : Env) (svc : Svc) (w w1 w2 w3 : World)
    (cluster : Cluster) (task : Task) (container : Container) (c t n : String)
    (hc : env.LoadDefaultConfig env.region = .ok svc)
    (h1 : selectECSCluster svc w = (.done (cluster, none), w1))
    (h2 : selectClusterTask svc cluster (w1.print "\n") = (.done (task, none), w2))
    (h3 : selectTaskContainer task (w2.print "\n") = (.done (container, none), w3))
    (hcn : cluster.ClusterName = some c) (ht : task.TaskArn = some t)
    (hn : container.Name = some n) :
    (main env w).2.trace = w3.trace ++ [.print "\n",
      .exec ["aws", "ecs", "execute-command", "--cluster", c, "--task", t,
        "--container", n, "--interactive", "--command", env.command]] ∧
    execs (main env w).2.trace = execs w.trace ++
      [["aws", "ecs", "execute-command", "--cluster", c, "--task", t,
        "--container", n, "--interactive", "--command", env.command]] := by
  have ht1 : (main env w).2.trace = w3.trace ++ [.print "\n",
      .exec ["aws", "ecs", "execute-command", "--cluster", c, "--task", t,
        "--container", n, "--interactive", "--command", env.command]] := by
    unfold main
    rw [hc]
    dsimp only
    rw [h1]
    dsimp only
    rw [h2]
    dsimp only
    rw [h3]
    dsimp only
    rw [hcn, ht, hn]
    dsimp only
    cases env.Run _ <;> simp [World.print, World.log]
  refine ⟨ht1, ?_⟩
  have e1 := selectECSCluster_execs svc w
  have e2 := selectClusterTask_execs svc cluster (w1.print "\n")
  have e3 := selectTaskContainer_execs task (w2.print "\n")
  rw [h1] at e1
  rw [h2] at e2
  rw [h3] at e3
  dsimp only at e1 e2 e3
  rw [ht1, execs_append, e3]
  have e4 : execs (w2.print "\n").trace = execs w2.trace := by
    simp [World.print, World.log, execs_append, execs]
  have e5 : execs (w1.print "\n").trace = execs w1.trace := by
    simp [World.print, World.log, execs_append, execs]
  rw [e4, e2, e5, e1]
  simp [execs]

/-- Witness of C7: the full run with the cluster `prod`, the task `arn:task/1`,
the container `web` and the command `sh` (lines `1`, `0`, `0` typed). -/
theorem main_builds_execute_command_witness :
    execs (main (demoEnv demoSvc) (typed ["1", "0", "0"])).2.trace =
      [["aws", "ecs", "execute-command", "--cluster", "prod", "--task", "arn:task/1",
        "--container", "web", "--interactive", "--command", "sh"]] :=
  (main_builds_execute_command (demoEnv demoSvc) demoSvc (typed ["1", "0", "0"])
    (selectECSCluster demoSvc (typed ["1", "0", "0"])).2
    (selectClusterTask demoSvc prodCluster
      ((selectECSCluster demoSvc (typed ["1", "0", "0"])).2.print "\n")).2
    (selectTaskContainer demoTask
      ((selectClusterTask demoSvc prodCluster
        ((selectECSCluster demoSvc (typed ["1", "0", "0"])).2.print "\n")).2.print "\n")).2
    prodCluster demoTask { Name := some "web" } "prod" "arn:task/1" "web"
    rfl (Prod.ext rfl rfl) (Prod.ext rfl rfl) (Prod.ext rfl rfl) rfl rfl rfl).2

end EcsExplorer
